import Mathlib

/-!
Verification of the retis event representation and rendering pipeline.

Each definition below is a shallow embedding of a function of the
repository, translated from the Rust sources:

- `TimeSpec.new`, `TimeSpec.add`, `TimeSpec.sub` from
  `src/retis-events/src/time.rs`;
- `parse_cli_probe` from `src/retis/src/core/probe/kernel/utils.rs`;
- the `Formatter` state machine from `src/retis-events/src/display.rs`;
- `seriesIndent` / `seriesText` from `src/retis/src/process/display.rs`;
- the tcpdump dispatcher read loop and the `SkbEvent` text renderer from
  `src/retis-events/src/skb.rs`;
- `inspect_symbol` from `src/retis/src/core/probe/kernel/inspect.rs`.

Rust `i64` values are embedded as `Int` with two's-complement wrapping
(`wrap64`) applied wherever the Rust arithmetic can overflow, and Rust
strings are embedded as `List Char`.
-/

/-! ## i64 arithmetic helpers -/

/-- Two's-complement wrap of an integer into the `i64` range, the behaviour
of overflowing Rust integer arithmetic. -/
def wrap64 (x : Int) : Int :=
  (x + 9223372036854775808) % 18446744073709551616 - 9223372036854775808

/-- `x` is representable as an `i64`. -/
def inI64 (x : Int) : Prop :=
  -9223372036854775808 ≤ x ∧ x < 9223372036854775808

instance (x : Int) : Decidable (inI64 x) := by
  unfold inI64; infer_instance

theorem wrap64_eq_of_inI64 {x : Int} (h : inI64 x) : wrap64 x = x := by
  obtain ⟨h1, h2⟩ := h
  unfold wrap64
  omega

/-! ## TimeSpec (src/retis-events/src/time.rs) -/

/-- `struct TimeSpec` from `time.rs`: a pair of `i64` fields. -/
structure TimeSpec where
  sec : Int
  nsec : Int
deriving DecidableEq

/-- `TimeSpec::NSECS_IN_SEC`. -/
def NSECS_IN_SEC : Int := 1000000000

/-- `TimeSpec::new` from `time.rs`: folds positive nsec overflow into sec.
The `sec + diff` addition is an `i64` addition, hence wrapped. -/
def TimeSpec.new (sec nsec : Int) : TimeSpec :=
  if NSECS_IN_SEC ≤ nsec then
    let diff := nsec / NSECS_IN_SEC
    { sec := wrap64 (sec + diff), nsec := wrap64 (nsec - diff * NSECS_IN_SEC) }
  else
    { sec := sec, nsec := nsec }

/-- `impl ops::Add for TimeSpec` from `time.rs`: componentwise addition with
a single carry from nsec into sec. -/
def TimeSpec.add (a b : TimeSpec) : TimeSpec :=
  let sec := wrap64 (a.sec + b.sec)
  let nsec := wrap64 (a.nsec + b.nsec)
  if NSECS_IN_SEC ≤ nsec then
    { sec := wrap64 (sec + 1), nsec := wrap64 (nsec - NSECS_IN_SEC) }
  else
    { sec := sec, nsec := nsec }

/-- `impl ops::Sub for TimeSpec` from `time.rs`: componentwise subtraction
with a single borrow from sec into nsec. -/
def TimeSpec.sub (a b : TimeSpec) : TimeSpec :=
  let sec := wrap64 (a.sec - b.sec)
  let nsec := wrap64 (a.nsec - b.nsec)
  if nsec < 0 then
    { sec := wrap64 (sec - 1), nsec := wrap64 (nsec + NSECS_IN_SEC) }
  else
    { sec := sec, nsec := nsec }

/-- C7: for normalized `TimeSpec` values `a` and `b` whose componentwise
sums and differences fit in `i64`, `(a + b) - b = a`, with `+` carrying
from nsec into sec and `-` borrowing from sec into nsec. -/
theorem timespec_add_sub_roundtrip (a b : TimeSpec)
    (has : inI64 a.sec) (hbs : inI64 b.sec)
    (han : 0 ≤ a.nsec ∧ a.nsec < NSECS_IN_SEC)
    (hbn : 0 ≤ b.nsec ∧ b.nsec < NSECS_IN_SEC)
    (hsum : inI64 (a.sec + b.sec)) (hnsum : inI64 (a.nsec + b.nsec))
    (hdiff : inI64 (a.sec - b.sec)) (hndiff : inI64 (a.nsec - b.nsec)) :
    (a.add b).sub b = a := by
  obtain ⟨as, an⟩ := a
  obtain ⟨bs, bn⟩ := b
  simp only [TimeSpec.add, TimeSpec.sub, wrap64, NSECS_IN_SEC, inI64] at *
  split_ifs <;> simp_all only [TimeSpec.mk.injEq] <;> omega

/-- Witness for C7 at a concrete carrying input. -/
theorem timespec_add_sub_roundtrip_witness :
    (TimeSpec.add ⟨1, 500000000⟩ ⟨2, 700000000⟩).sub ⟨2, 700000000⟩
      = ⟨1, 500000000⟩ :=
  timespec_add_sub_roundtrip ⟨1, 500000000⟩ ⟨2, 700000000⟩
    (by decide) (by decide) (by decide) (by decide)
    (by decide) (by decide) (by decide) (by decide)

/-- C8 counterexample: `TimeSpec::new(0, -1)` keeps the negative nsec, so
the normalization `0 ≤ nsec < 10^9` does not hold for every input. -/
theorem timespec_new_negative_nsec :
    (TimeSpec.new 0 (-1)).nsec = -1 ∧ (TimeSpec.new 0 (-1)).nsec < 0 := by
  constructor <;> decide

/-- C8 (amended): for every input with `0 ≤ nsec` (both fields `i64`),
`TimeSpec::new` returns a value with `0 ≤ nsec < 10^9`, the overflow folded
into sec; in particular `new(0, 10^9) = (1, 0)` and
`new(0, 2*10^9 + 1) = (2, 1)`. -/
theorem timespec_new_normalizes (sec nsec : Int)
    (hs : inI64 sec) (hn : 0 ≤ nsec) (hni : inI64 nsec) :
    0 ≤ (TimeSpec.new sec nsec).nsec ∧
    (TimeSpec.new sec nsec).nsec < NSECS_IN_SEC ∧
    (TimeSpec.new sec nsec).nsec = nsec % NSECS_IN_SEC ∧
    (TimeSpec.new sec nsec).sec = wrap64 (sec + nsec / NSECS_IN_SEC) ∧
    TimeSpec.new 0 1000000000 = ⟨1, 0⟩ ∧
    TimeSpec.new 0 2000000001 = ⟨2, 1⟩ := by
  obtain ⟨hs1, hs2⟩ := hs
  obtain ⟨hn1, hn2⟩ := hni
  refine ⟨?_, ?_, ?_, ?_, by decide, by decide⟩ <;>
  · simp only [TimeSpec.new, wrap64, NSECS_IN_SEC] at *
    split_ifs with h <;> dsimp only <;> omega

/-- Witness for C8 at the concrete input `(0, 2*10^9 + 1)`. -/
theorem timespec_new_normalizes_witness :
    0 ≤ (TimeSpec.new 0 2000000001).nsec ∧
    (TimeSpec.new 0 2000000001).nsec < NSECS_IN_SEC :=
  ⟨(timespec_new_normalizes 0 2000000001 (by decide) (by decide) (by decide)).1,
   (timespec_new_normalizes 0 2000000001 (by decide) (by decide) (by decide)).2.1⟩

/-! ## CLI probe parsing (src/retis/src/core/probe/kernel/utils.rs) -/

/-- `enum CliProbeType` from `utils.rs`. -/
inductive CliProbeType where
  | Kprobe
  | Kretprobe
  | RawTracepoint
deriving DecidableEq

deriving instance DecidableEq for Except

/-- Rust `str::split_once(':')`: splits at the first colon, if any. -/
def split_once : List Char → Option (List Char × List Char)
  | [] => none
  | c :: rest =>
    if c = ':' then some ([], rest)
    else
      match split_once rest with
      | some (a, b) => some (c :: a, b)
      | none => none

/-- `parse_cli_probe` from `utils.rs`: match on the text before the first
colon; unknown text falls back to a raw tracepoint when the whole input has
exactly one colon, and is a parse error otherwise. -/
def parse_cli_probe (input : List Char) :
    Except (List Char) (CliProbeType × List Char) :=
  match split_once input with
  | some (type_str, target) =>
    if type_str = "kprobe".data ∨ type_str = "k".data then
      .ok (.Kprobe, target)
    else if type_str = "kretprobe".data ∨ type_str = "kr".data then
      .ok (.Kretprobe, target)
    else if type_str = "raw_tracepoint".data ∨ type_str = "tp".data then
      .ok (.RawTracepoint, target)
    else if input.count ':' = 1 then
      .ok (.RawTracepoint, input)
    else
      .error ("Invalid TYPE ".data ++ type_str ++ ". See the help.".data)
  | none => .ok (.Kprobe, input)

theorem split_once_eq_none {l : List Char} (h : ':' ∉ l) :
    split_once l = none := by
  induction l with
  | nil => rfl
  | cons c rest ih =>
    simp only [List.mem_cons, not_or] at h
    simp only [split_once, if_neg (Ne.symm h.1), ih h.2]

/-- C9: `parse_cli_probe` maps colon-free input to a kprobe on the whole
input, `kr:kfree_skb` to a kretprobe on `kfree_skb`, and
`tp:skb:kfree_skb` to a raw tracepoint on `skb:kfree_skb`, preserving the
colon inside the tracepoint target. -/
theorem parse_cli_probe_known_types :
    (∀ s : List Char, ':' ∉ s → parse_cli_probe s = .ok (.Kprobe, s)) ∧
    parse_cli_probe "kr:kfree_skb".data
      = .ok (.Kretprobe, "kfree_skb".data) ∧
    parse_cli_probe "tp:skb:kfree_skb".data
      = .ok (.RawTracepoint, "skb:kfree_skb".data) := by
  refine ⟨fun s hs => ?_, by decide, by decide⟩
  simp only [parse_cli_probe, split_once_eq_none hs]

/-- Witness for C9 at the colon-free input `consume_skb`. -/
theorem parse_cli_probe_known_types_witness :
    parse_cli_probe "consume_skb".data
      = .ok (.Kprobe, "consume_skb".data) :=
  parse_cli_probe_known_types.1 "consume_skb".data (by decide)

/-- C1 counterexample: `xyz:foo` has exactly one colon, so the fallback
turns it into a raw tracepoint on the whole input instead of the parse
error the claim requires. -/
theorem parse_cli_probe_xyz_foo_ok :
    parse_cli_probe "xyz:foo".data = .ok (.RawTracepoint, "xyz:foo".data) := by
  decide

/-- C1 (amended): an input whose text before the first colon is not a known
probe type is a fatal parse error exactly when the whole input does not
have exactly one colon; `xyz:foo:bar` is such a parse error (while
`xyz:foo` falls back to a raw tracepoint on the whole input). -/
theorem parse_cli_probe_unknown_type_error :
    (∀ s type_str target, split_once s = some (type_str, target) →
      type_str ≠ "kprobe".data → type_str ≠ "k".data →
      type_str ≠ "kretprobe".data → type_str ≠ "kr".data →
      type_str ≠ "raw_tracepoint".data → type_str ≠ "tp".data →
      s.count ':' ≠ 1 →
      parse_cli_probe s
        = .error ("Invalid TYPE ".data ++ type_str ++ ". See the help.".data)) ∧
    parse_cli_probe "xyz:foo:bar".data
      = .error "Invalid TYPE xyz. See the help.".data := by
  refine ⟨fun s ts tg hsplit h1 h2 h3 h4 h5 h6 hcount => ?_, by decide⟩
  simp only [parse_cli_probe, hsplit]
  rw [if_neg (by tauto), if_neg (by tauto), if_neg (by tauto), if_neg hcount]

/-- Witness for C1 at the concrete input `xyz:foo:bar`. -/
theorem parse_cli_probe_unknown_type_error_witness :
    parse_cli_probe "xyz:foo:bar".data
      = .error ("Invalid TYPE ".data ++ "xyz".data ++ ". See the help.".data) :=
  parse_cli_probe_unknown_type_error.1 "xyz:foo:bar".data "xyz".data
    "foo:bar".data (by decide) (by decide) (by decide) (by decide)
    (by decide) (by decide) (by decide) (by decide)

/-! ## Formatter (src/retis-events/src/display.rs) -/

/-- Rust `str::split(sep)` on characters: all separator-delimited segments,
keeping empty ones (an empty input yields one empty segment and a trailing
separator yields a trailing empty segment). -/
def splitChar : List Char → Char → List (List Char)
  | [], _ => [[]]
  | c :: rest, d =>
    if c = d then [] :: splitChar rest d
    else
      match splitChar rest d with
      | s :: ss => (c :: s) :: ss
      | [] => [[c]]

/-- The state of a `Formatter` from `display.rs` together with the text
already written to the wrapped sink (`out`). `confLevel` is `conf.level`,
`level` the cached indentation level, `start` and `buf` the line-start flag
and the line buffer. -/
structure FmtState where
  confLevel : Nat
  level : Nat
  start : Bool
  buf : List Char
  out : List Char
deriving DecidableEq

/-- `Formatter::new` from `display.rs` (via `FormatterConf::with_level`). -/
def Formatter.new (lvl : Nat) : FmtState :=
  { confLevel := lvl, level := lvl, start := true, buf := [], out := [] }

/-- `Formatter::flush_buf` from `display.rs`: split the buffer on newlines,
write the first segment (with the indent if at line start), write every
further segment preceded by a newline and the indent, then handle a
trailing newline in the buffer, and clear the buffer. -/
def Formatter.flush_buf (s : FmtState) : FmtState :=
  let pre := List.replicate s.level ' '
  let s1 :=
    match splitChar s.buf '\n' with
    | [] => s
    | l0 :: rest =>
      let st0 := if s.start then false else s.start
      let o0 := (if s.start then s.out ++ pre else s.out) ++ l0
      let o1 := rest.foldl (fun acc l => (acc ++ '\n' :: pre) ++ l) o0
      { s with start := st0, out := o1 }
  let s2 :=
    if s.buf.getLast? = some '\n' then
      { s1 with out := s1.out ++ ['\n'], start := true }
    else s1
  { s2 with buf := [] }

/-- `Formatter::write_str` from `display.rs`: flush on an indentation-level
change, then append to the line buffer. -/
def Formatter.write_str (s : FmtState) (str : List Char) : FmtState :=
  let s :=
    if s.confLevel ≠ s.level then
      let s := if s.buf ≠ [] then Formatter.flush_buf s else s
      { s with level := s.confLevel }
    else s
  { s with buf := s.buf ++ str }

/-- `impl Drop for Formatter` from `display.rs`: flush any pending buffer. -/
def Formatter.drop (s : FmtState) : FmtState :=
  if s.buf ≠ [] then Formatter.flush_buf s else s

/-- One-shot rendering through a fresh `Formatter` at a given level, as
`EventDisplay::display` does: write everything, then drop (flush). -/
def Formatter.run (lvl : Nat) (payload : List Char) : List Char :=
  (Formatter.drop (Formatter.write_str (Formatter.new lvl) payload)).out

/-- C2: a `Formatter` at level 2 flushing the buffered string `"a\nb\n"`
does NOT write `"  a\n  b\n"`: because `flush_buf` iterates over
`buf.split('\n')`, the trailing newline contributes an empty final segment
that receives a newline plus the indent, and then the `ends_with('\n')`
branch appends one more newline, so the sink receives `"  a\n  b\n  \n"`
(a stray indented blank line). The claim describes the intended behaviour
(the spec's own formatter example); the code deviates from it. -/
theorem formatter_flush_extra_blank_line :
    Formatter.run 2 "a\nb\n".data = "  a\n  b\n  \n".data ∧
    Formatter.run 2 "a\nb\n".data ≠ "  a\n  b\n".data := by
  constructor <;> decide

/-! ## PrintSeries (src/retis/src/process/display.rs) -/

/-- The loop body of `PrintSeries::indent`: prepend `n` spaces and the
running delimiter (`"+ "` for the first line, `"  "` afterwards) to every
line. -/
def seriesIndentGo (n : Nat) (delim : List Char) : List (List Char) → List (List Char)
  | [] => []
  | l :: ls =>
    (List.replicate n ' ' ++ delim ++ l) :: seriesIndentGo n "  ".data ls

/-- `PrintSeries::indent` from `process/display.rs`. -/
def PrintSeries.indent (n : Nat) (lines : List Char) : List Char :=
  if n = 0 ∨ lines = [] then lines
  else List.intercalate ['\n'] (seriesIndentGo n "+ ".data (splitChar lines '\n'))

/-- The text loop of `PrintSeries::process_one`: starting at indent 0,
append each event's (already rendered) text with the current indent, then
a newline, switching to indent 2 once the content is non-empty. -/
def seriesGo : Nat → List Char → List (List Char) → List Char
  | _, content, [] => content
  | ind, content, r :: rs =>
    let content := content ++ PrintSeries.indent ind r
    if content = [] then seriesGo ind content rs
    else seriesGo 2 (content ++ ['\n']) rs

/-- `PrintSeries::process_one` (text path) from `process/display.rs` over
the list of the events' rendered texts: run the loop, then write the
content followed by one more newline when non-empty. -/
def PrintSeries.process_one (rendered : List (List Char)) : List Char :=
  let c := seriesGo 0 [] rendered
  if c = [] then [] else c ++ ['\n']

/-- C3 counterexample: a group of the two events rendered as `"a"` and
`"c"` prints the second event's first line as `"  + c"` — two spaces
before `"+ "`, not the four the claim requires. -/
theorem print_series_two_space_indent :
    PrintSeries.process_one ["a".data, "c".data] = "a\n  + c\n\n".data ∧
    PrintSeries.process_one ["a".data, "c".data] ≠ "a\n    + c\n\n".data := by
  constructor <;> decide

theorem seriesGo_of_ne_nil (rs : List (List Char)) (c : List Char) (hc : c ≠ []) :
    seriesGo 2 c rs
      = c ++ (rs.map (fun r => PrintSeries.indent 2 r ++ ['\n'])).flatten := by
  induction rs generalizing c with
  | nil => simp [seriesGo]
  | cons r rs ih =>
    have hne : c ++ PrintSeries.indent 2 r ≠ [] := by
      intro h
      exact hc (List.append_eq_nil.mp h).1
    simp only [seriesGo, if_neg hne, List.map_cons, List.flatten_cons]
    rw [ih _ (by simp [hne])]
    simp [List.append_assoc]

theorem splitChar_of_not_mem {l : List Char} {d : Char} (h : d ∉ l) :
    splitChar l d = [l] := by
  induction l with
  | nil => rfl
  | cons c rest ih =>
    simp only [List.mem_cons, not_or] at h
    simp only [splitChar, if_neg (Ne.symm h.1), ih h.2]

theorem intercalate_single (sep x : List Char) :
    List.intercalate sep [x] = x := by
  simp [List.intercalate, List.intersperse]

theorem intercalate_pair (sep x y : List Char) :
    List.intercalate sep [x, y] = x ++ sep ++ y := by
  simp [List.intercalate, List.intersperse]

theorem splitChar_append {a b : List Char} {d : Char} (h : d ∉ a) :
    splitChar (a ++ d :: b) d = a :: splitChar b d := by
  induction a with
  | nil => simp [splitChar]
  | cons c rest ih =>
    simp only [List.mem_cons, not_or] at h
    simp only [List.cons_append, splitChar, if_neg (Ne.symm h.1), List.append_eq,
      ih h.2]

/-- C3 (amended): for a series group whose first event renders non-empty,
the first event is rendered at indent 0 and every subsequent event is
passed through `PrintSeries::indent` with `n_spaces = 2`, which prefixes
its first line with two spaces then `"+ "` and every continuation line
with two spaces then `"  "` (four characters in both cases, so alignment
is preserved); a trailing blank line follows the group. -/
theorem print_series_indent_amended :
    (∀ (a : List Char) (rs : List (List Char)), a ≠ [] →
      PrintSeries.process_one (a :: rs)
        = a ++ '\n' :: ((rs.map (fun r => PrintSeries.indent 2 r ++ ['\n'])).flatten ++ ['\n'])) ∧
    (∀ b1 b2 : List Char, '\n' ∉ b1 → '\n' ∉ b2 →
      PrintSeries.indent 2 (b1 ++ '\n' :: b2)
        = "  + ".data ++ b1 ++ '\n' :: ("    ".data ++ b2)) ∧
    (∀ b : List Char, '\n' ∉ b → b ≠ [] →
      PrintSeries.indent 2 b = "  + ".data ++ b) := by
  refine ⟨fun a rs ha => ?_, fun b1 b2 h1 h2 => ?_, fun b hb hne => ?_⟩
  · have h0 : PrintSeries.indent 0 a = a := by simp [PrintSeries.indent]
    have hstep : seriesGo 0 [] (a :: rs)
        = (a ++ ['\n'])
          ++ (rs.map (fun r => PrintSeries.indent 2 r ++ ['\n'])).flatten := by
      simp only [seriesGo, h0, List.nil_append, if_neg ha]
      exact seriesGo_of_ne_nil rs (a ++ ['\n']) (by simp [ha])
    have hc : seriesGo 0 [] (a :: rs) ≠ [] := by
      rw [hstep]; simp [ha]
    simp only [PrintSeries.process_one, if_neg hc, hstep]
    simp [List.append_assoc]
  · have hcond : ¬(2 = 0 ∨ b1 ++ '\n' :: b2 = []) := by simp
    rw [PrintSeries.indent, if_neg hcond, splitChar_append h1,
      splitChar_of_not_mem h2]
    rw [show seriesIndentGo 2 "+ ".data (b1 :: [b2])
        = (List.replicate 2 ' ' ++ "+ ".data ++ b1)
          :: [List.replicate 2 ' ' ++ "  ".data ++ b2] from rfl]
    rw [intercalate_pair]
    simp [List.append_assoc]
  · have hcond : ¬(2 = 0 ∨ b = []) := by simp [hne]
    rw [PrintSeries.indent, if_neg hcond, splitChar_of_not_mem hb]
    rw [show seriesIndentGo 2 "+ ".data [b]
        = [List.replicate 2 ' ' ++ "+ ".data ++ b] from rfl]
    rw [intercalate_single]
    simp

/-- Witness for C3 at a concrete two-line second event. -/
theorem print_series_indent_amended_witness :
    PrintSeries.indent 2 ("c".data ++ '\n' :: "d".data)
      = "  + ".data ++ "c".data ++ '\n' :: ("    ".data ++ "d".data) :=
  print_series_indent_amended.2.1 "c".data "d".data (by decide) (by decide)

/-! ## tcpdump dispatcher (src/retis-events/src/skb.rs) -/

/-- The I/O error kinds the dispatcher code distinguishes: `BrokenPipe`
versus everything else. -/
inductive IOKind where
  | brokenPipe
  | other
deriving DecidableEq

/-- The errors `Tcpdump::display_event` can return: an `io::Error` of some
kind (from `write_all` on the child's stdin) or a `str::Utf8Error` (from
`str::from_utf8` on the child's output). -/
inductive DispErr where
  | io (k : IOKind)
  | utf8
deriving DecidableEq

/-- Outcome of `Tcpdump::display_event`, carrying the text written to the
formatter so far: normal return, error return, a Rust panic (from `unwrap`
on a failed read or from the `read - 1` underflow on a 0-byte read), or
blocking forever because the child never produces a short read. -/
inductive DispOutcome where
  | done (written : List Char)
  | err (e : DispErr) (written : List Char)
  | panicked (written : List Char)
  | blocked (written : List Char)
deriving DecidableEq

/-- UTF-8 validation and decoding to code points, per the checks performed
by Rust `str::from_utf8`: rejects overlong forms, surrogates and code
points above 0x10FFFF. Returns `none` on invalid input. -/
def utf8Decode : List Nat → Option (List Nat)
  | [] => some []
  | b :: rest =>
    if b < 0x80 then
      (utf8Decode rest).map (b :: ·)
    else if 0xC2 ≤ b ∧ b ≤ 0xDF then
      match rest with
      | b2 :: rest2 =>
        if 0x80 ≤ b2 ∧ b2 ≤ 0xBF then
          (utf8Decode rest2).map (((b - 0xC0) * 64 + (b2 - 0x80)) :: ·)
        else none
      | [] => none
    else if 0xE0 ≤ b ∧ b ≤ 0xEF then
      match rest with
      | b2 :: b3 :: rest3 =>
        let lo2 := if b = 0xE0 then 0xA0 else 0x80
        let hi2 := if b = 0xED then 0x9F else 0xBF
        if lo2 ≤ b2 ∧ b2 ≤ hi2 ∧ 0x80 ≤ b3 ∧ b3 ≤ 0xBF then
          (utf8Decode rest3).map
            (((b - 0xE0) * 4096 + (b2 - 0x80) * 64 + (b3 - 0x80)) :: ·)
        else none
      | _ => none
    else if 0xF0 ≤ b ∧ b ≤ 0xF4 then
      match rest with
      | b2 :: b3 :: b4 :: rest4 =>
        let lo2 := if b = 0xF0 then 0x90 else 0x80
        let hi2 := if b = 0xF4 then 0x8F else 0xBF
        if lo2 ≤ b2 ∧ b2 ≤ hi2 ∧ 0x80 ≤ b3 ∧ b3 ≤ 0xBF ∧ 0x80 ≤ b4 ∧ b4 ≤ 0xBF then
          (utf8Decode rest4).map
            (((b - 0xF0) * 262144 + (b2 - 0x80) * 4096
              + (b3 - 0x80) * 64 + (b4 - 0x80)) :: ·)
        else none
      | _ => none
    else none

/-- The blocking read loop of `Tcpdump::display_event` (skb.rs lines
101-111) over the sequence of results of `stdout.read` (each `ok` carries
the bytes actually read, at most 250): a failed read panics (`unwrap`); a
short read of `read` bytes writes `from_utf8(buf[..read - 1])` and stops —
panicking on `read = 0` because `read - 1` underflows — and a full
250-byte read writes `from_utf8(buf[..read])` and continues. -/
def readLoop : List (Except IOKind (List Nat)) → List Char → DispOutcome
  | [], w => .blocked w
  | (Except.error _) :: _, w => .panicked w
  | (Except.ok chunk) :: rest, w =>
    if chunk.length < 250 then
      if chunk.length = 0 then .panicked w
      else
        match utf8Decode (chunk.take (chunk.length - 1)) with
        | none => .err .utf8 w
        | some cps => .done (w ++ cps.map Char.ofNat)
    else
      match utf8Decode chunk with
      | none => .err .utf8 w
      | some cps => readLoop rest (w ++ cps.map Char.ofNat)

/-- `Tcpdump::display_event` from `skb.rs`: build the 16-byte pcap record
header plus packet in a local buffer (infallible), write it to the child's
stdin (`wr` is that write's result), then run the read loop. -/
def Tcpdump.display_event (wr : Except IOKind Unit)
    (reads : List (Except IOKind (List Nat))) : DispOutcome :=
  match wr with
  | Except.error k => .err (.io k) []
  | Except.ok _ => readLoop reads []

/-- Outcome of the packet arm of `SkbEvent::event_fmt`: the text written
for the packet, a panic, or blocking. -/
inductive FmtOutcome where
  | done (out : List Char)
  | panicked
  | blocked
deriving DecidableEq

/-- The packet arm of `SkbEvent::event_fmt` (skb.rs lines 264-292) for a
present packet section: if the tcpdump child could not be spawned
(`spawnOk = false`), log and write `"unknown packet"`; otherwise run
`display_event` and, on an error return, silently swallow `BrokenPipe`
`io::Error`s and write `"unknown packet"` (plus a log) for every other
error; panics and blocking propagate. -/
def packetBranch (spawnOk : Bool) (wr : Except IOKind Unit)
    (reads : List (Except IOKind (List Nat))) : FmtOutcome :=
  if spawnOk then
    match Tcpdump.display_event wr reads with
    | .done w => .done w
    | .err e w =>
      if e = .io .brokenPipe then .done w
      else .done (w ++ "unknown packet".data)
    | .panicked _ => .panicked
    | .blocked _ => .blocked
  else .done "unknown packet".data

/-- C10: the dispatcher's read loop is partial as an I/O protocol — a
0-byte read (EOF, e.g. the child exited) hits the `buf[..read - 1]`
underflow and panics, and a failed read hits `Result::unwrap` and panics;
neither case is returned as a render error, so neither reaches the
`"unknown packet"` fallback of the failure policy. -/
theorem tcpdump_read_loop_panics :
    (∀ (rest : List (Except IOKind (List Nat))) (w : List Char),
      readLoop (Except.ok [] :: rest) w = .panicked w) ∧
    (∀ (k : IOKind) (rest : List (Except IOKind (List Nat))) (w : List Char),
      readLoop (Except.error k :: rest) w = .panicked w) ∧
    packetBranch true (Except.ok ()) [Except.ok []] = .panicked := by
  refine ⟨fun rest w => rfl, fun k rest w => rfl, rfl⟩

/-- C4 counterexample: an error while reading the child's stdout makes the
render panic (via `unwrap`), it is not logged-and-replaced by the literal
`"unknown packet"` as the claim states. -/
theorem tcpdump_read_error_panics :
    packetBranch true (Except.ok ()) [Except.error IOKind.other] = .panicked ∧
    ∀ out : List Char, FmtOutcome.panicked ≠ FmtOutcome.done out := by
  exact ⟨rfl, fun out h => by cases h⟩

set_option maxRecDepth 4000 in
/-- C4 (amended): for every error actually returned by the pcap
dispatcher — an I/O error from writing to the child's stdin, or invalid
UTF-8 in the child's output — a `BrokenPipe` I/O error is silently
swallowed and any other returned error is logged and replaced by the
literal `"unknown packet"` in the rendered text (likewise when the child
cannot be spawned at all); errors reading the child's stdout never reach
this policy, they panic (see C10). -/
theorem tcpdump_failure_policy :
    (∀ (wr : Except IOKind Unit) (reads : List (Except IOKind (List Nat))),
      packetBranch false wr reads = .done "unknown packet".data) ∧
    (∀ reads : List (Except IOKind (List Nat)),
      packetBranch true (Except.error IOKind.brokenPipe) reads = .done []) ∧
    (∀ reads : List (Except IOKind (List Nat)),
      packetBranch true (Except.error IOKind.other) reads
        = .done "unknown packet".data) ∧
    packetBranch true (Except.ok ()) [Except.ok (List.replicate 250 255)]
      = .done "unknown packet".data := by
  refine ⟨fun wr reads => rfl, fun reads => rfl, fun reads => rfl, ?_⟩
  decide

/-! ## SkbEvent text rendering (src/retis-events/src/skb.rs) -/

/-- `enum DisplayFormatFlavor` from `display.rs`. -/
inductive DisplayFormatFlavor where
  | SingleLine
  | MultiLine
deriving DecidableEq

/-- `enum TimeFormat` from `display.rs`. -/
inductive TimeFormat where
  | MonotonicTimestamp
  | UtcDate
deriving DecidableEq

/-- `struct DisplayFormat` from `display.rs`. The `print_ll` field is used
by `SkbEvent::event_fmt` in `skb.rs`; it is absent from the copy of
`display.rs` in `src/`, so it is modelled from the spec's `DisplayFormat`
option table. -/
structure DisplayFormat where
  flavor : DisplayFormatFlavor
  time_format : TimeFormat
  show_metadata : Bool
  monotonic_offset : Option TimeSpec
  print_ll : Bool

/-- Modelled from the spec: the `multiline` option is derived from the
flavor (`SingleLine` versus `MultiLine`). -/
def DisplayFormat.multiline (f : DisplayFormat) : Bool :=
  match f.flavor with
  | .MultiLine => true
  | .SingleLine => false

/-- `DelimWriter` from `display.rs`: prints its delimiter only on writes
after the first. -/
structure DelimWriter where
  delim : Char
  first : Bool

/-- `DelimWriter::new`. -/
def DelimWriter.new (d : Char) : DelimWriter := ⟨d, true⟩

/-- `DelimWriter::write`: emit the delimiter unless this is the first
write. -/
def DelimWriter.write (dw : DelimWriter) (acc : List Char) :
    DelimWriter × List Char :=
  if dw.first then ({ dw with first := false }, acc)
  else (dw, acc ++ [dw.delim])

/-- Modelled from the spec: `DelimWriter::used` returns whether a write
already happened (used by `skb.rs`; missing from the copy of `display.rs`
in `src/`). -/
def DelimWriter.used (dw : DelimWriter) : Bool := !dw.first

/-- Modelled from the spec: `DelimWriter::reset` makes the next write emit
no delimiter again (used by `skb.rs` after the multiline break; missing
from the copy of `display.rs` in `src/`). -/
def DelimWriter.reset (dw : DelimWriter) : DelimWriter :=
  { dw with first := true }

/-- Decimal rendering of an unsigned integer field. -/
def natDec (n : Nat) : List Char := Nat.toDigits 10 n

/-- Rust `{:#x}`-style rendering: `0x` followed by lowercase hex digits. -/
def natHex (n : Nat) : List Char := '0' :: 'x' :: Nat.toDigits 16 n

/-- `SkbEthEvent` from `skb.rs`. -/
structure SkbEthEvent where
  etype : Nat
  src : List Char
  dst : List Char

/-- `SkbVlanEvent` from `skb.rs`. -/
structure SkbVlanEvent where
  pcp : Nat
  dei : Bool
  vid : Nat
  acceleration : Bool

/-- `ArpOperation` from `skb.rs`. -/
inductive ArpOperation where
  | Request
  | Reply
  | ReverseRequest
  | ReverseReply

/-- `SkbArpEvent` from `skb.rs`. -/
structure SkbArpEvent where
  operation : ArpOperation
  sha : List Char
  spa : List Char
  tha : List Char
  tpa : List Char

/-- `SkbIpv4Event` from `skb.rs`. -/
structure SkbIpv4Event where
  tos : Nat
  id : Nat
  flags : Nat
  offset : Nat

/-- `SkbIpv6Event` from `skb.rs`. -/
structure SkbIpv6Event where
  flow_label : Nat

/-- `SkbIpVersion` from `skb.rs`. -/
inductive SkbIpVersion where
  | V4 (v4 : SkbIpv4Event)
  | V6 (v6 : SkbIpv6Event)

/-- `SkbIpEvent` from `skb.rs`. -/
structure SkbIpEvent where
  saddr : List Char
  daddr : List Char
  version : SkbIpVersion
  protocol : Nat
  len : Nat
  ttl : Nat
  ecn : Nat

/-- `SkbTcpEvent` from `skb.rs`. -/
structure SkbTcpEvent where
  sport : Nat
  dport : Nat
  seq : Nat
  ack_seq : Nat
  window : Nat
  doff : Nat
  flags : Nat

/-- `SkbUdpEvent` from `skb.rs`. -/
structure SkbUdpEvent where
  sport : Nat
  dport : Nat
  len : Nat

/-- `SkbIcmpEvent` from `skb.rs` (`r#type` embedded as `rtype`). -/
structure SkbIcmpEvent where
  rtype : Nat
  code : Nat

/-- `SkbIcmpV6Event` from `skb.rs` (`r#type` embedded as `rtype`). -/
structure SkbIcmpV6Event where
  rtype : Nat
  code : Nat

/-- `SkbDevEvent` from `skb.rs`. -/
structure SkbDevEvent where
  name : List Char
  ifindex : Nat
  rx_ifindex : Option Nat

/-- `SkbNsEvent` from `skb.rs`. -/
structure SkbNsEvent where
  netns : Nat

/-- `SkbMetaEvent` from `skb.rs`. -/
structure SkbMetaEvent where
  len : Nat
  data_len : Nat
  hash : Nat
  ip_summed : Nat
  csum : Nat
  csum_level : Nat
  priority : Nat

/-- `SkbDataRefEvent` from `skb.rs`. -/
structure SkbDataRefEvent where
  nohdr : Bool
  cloned : Bool
  fclone : Nat
  users : Nat
  dataref : Nat

/-- `SkbGsoEvent` from `skb.rs` (`r#type` embedded as `rtype`). -/
structure SkbGsoEvent where
  flags : Nat
  frags : Nat
  size : Nat
  segs : Nat
  rtype : Nat

/-- `SkbPacketEvent` from `skb.rs`. -/
structure SkbPacketEvent where
  len : Nat
  capture_len : Nat
  packet : List Nat

/-- `SkbEvent` from `skb.rs`: composition of optional sub-records. -/
structure SkbEvent where
  eth : Option SkbEthEvent := none
  vlan : Option SkbVlanEvent := none
  arp : Option SkbArpEvent := none
  ip : Option SkbIpEvent := none
  tcp : Option SkbTcpEvent := none
  udp : Option SkbUdpEvent := none
  icmp : Option SkbIcmpEvent := none
  icmpv6 : Option SkbIcmpV6Event := none
  dev : Option SkbDevEvent := none
  ns : Option SkbNsEvent := none
  meta : Option SkbMetaEvent := none
  data_ref : Option SkbDataRefEvent := none
  gso : Option SkbGsoEvent := none
  packet : Option SkbPacketEvent := none

/-- `SkbEvent::event_fmt` from `skb.rs`, threading the `DelimWriter` state
and the concatenation of everything written to the `Formatter`'s buffer.
The packet arm takes the dispatcher inputs (`spawnOk`, `wr`, `reads`) and
may panic or block through `packetBranch`. -/
def SkbEvent.event_fmt (e : SkbEvent) (format : DisplayFormat)
    (spawnOk : Bool) (wr : Except IOKind Unit)
    (reads : List (Except IOKind (List Nat))) : FmtOutcome :=
  let s : DelimWriter × List Char := (DelimWriter.new ' ', [])
  let s := match e.ns with
    | some ns =>
      let s := s.1.write s.2
      (s.1, s.2 ++ "ns ".data ++ natDec ns.netns)
    | none => s
  let s := match e.dev with
    | some dev =>
      let s := s.1.write s.2
      let a :=
        if 0 < dev.ifindex then
          (s.2 ++ "if ".data ++ natDec dev.ifindex)
            ++ (if dev.name ≠ [] then " (".data ++ dev.name ++ ")".data else [])
        else s.2
      let a := match dev.rx_ifindex with
        | some rx => a ++ " rxif ".data ++ natDec rx
        | none => a
      (s.1, a)
    | none => s
  let s :=
    if format.print_ll then
      match e.vlan with
      | some vlan =>
        let s := s.1.write s.2
        let dropStr := if vlan.dei then " drop".data else []
        let accel := if vlan.acceleration then " accel".data else []
        (s.1, s.2 ++ "vlan (id ".data ++ natDec vlan.vid ++ " prio ".data
          ++ natDec vlan.pcp ++ dropStr ++ accel ++ ")".data)
      | none => s
    else s
  let s :=
    if e.meta.isSome || e.data_ref.isSome then
      let s := s.1.write s.2
      let a := s.2 ++ "skb [".data
      let a := match e.meta with
        | some meta =>
          let a := a ++ "csum ".data
          let a :=
            if meta.ip_summed = 0 then a ++ "none ".data
            else if meta.ip_summed = 1 then
              a ++ "unnecessary (level ".data ++ natDec meta.csum_level ++ ") ".data
            else if meta.ip_summed = 2 then
              a ++ "complete (".data ++ natHex meta.csum ++ ") ".data
            else if meta.ip_summed = 3 then
              a ++ "partial (start ".data ++ natDec (meta.csum % 65536)
                ++ " off ".data ++ natDec (meta.csum / 65536) ++ ") ".data
            else a ++ "unknown (".data ++ natDec meta.ip_summed ++ ") ".data
          let a :=
            if meta.hash ≠ 0 then a ++ "hash ".data ++ natHex meta.hash ++ [' ']
            else a
          let a := a ++ "len ".data ++ natDec meta.len ++ [' ']
          let a :=
            if meta.data_len ≠ 0 then
              a ++ "data_len ".data ++ natDec meta.data_len ++ [' ']
            else a
          a ++ "priority ".data ++ natDec meta.priority
        | none => a
      let a := if e.meta.isSome && e.data_ref.isSome then a ++ [' '] else a
      let a := match e.data_ref with
        | some dr =>
          let a := if dr.nohdr then a ++ "nohdr ".data else a
          let a := if dr.cloned then a ++ "cloned ".data else a
          let a :=
            if 0 < dr.fclone then a ++ "fclone ".data ++ natDec dr.fclone ++ [' ']
            else a
          a ++ "users ".data ++ natDec dr.users ++ " dataref ".data
            ++ natDec dr.dataref
        | none => a
      (s.1, a ++ "]".data)
    else s
  let s := match e.gso with
    | some gso =>
      let s := s.1.write s.2
      let a := s.2 ++ "gso [type ".data ++ natHex gso.rtype ++ [' ']
      let a := if gso.flags ≠ 0 then a ++ "flags ".data ++ natHex gso.flags ++ [' '] else a
      let a := if gso.frags ≠ 0 then a ++ "frags ".data ++ natDec gso.frags ++ [' '] else a
      let a := if gso.segs ≠ 0 then a ++ "segs ".data ++ natDec gso.segs ++ [' '] else a
      (s.1, a ++ "size ".data ++ natDec gso.size ++ "]".data)
    | none => s
  let s :=
    if format.multiline && s.1.used then (s.1.reset, s.2 ++ ['\n'])
    else s
  match e.packet with
  | some _ =>
    let s := s.1.write s.2
    match packetBranch spawnOk wr reads with
    | .done w => .done (s.2 ++ w)
    | .panicked => .panicked
    | .blocked => .blocked
  | none =>
    let s := s.1.write s.2
    .done (s.2 ++ "unknown packet".data)

/-- Displaying an `SkbEvent` through `EventDisplay::display`: run
`event_fmt` against a fresh `Formatter` at the given level and flush it on
drop (`display.rs`, `DefaultDisplay::fmt`). -/
def SkbEvent.render (e : SkbEvent) (format : DisplayFormat) (spawnOk : Bool)
    (wr : Except IOKind Unit) (reads : List (Except IOKind (List Nat)))
    (lvl : Nat) : FmtOutcome :=
  match e.event_fmt format spawnOk wr reads with
  | .done w => .done (Formatter.run lvl w)
  | x => x

/-- The C6 input event: netns 42, dev (3, eth0), an IPv4 ip record, meta
with len 54, ip_summed 2 and csum 0x1234, all other fields zero, and no
packet section. -/
def c6Event : SkbEvent :=
  { ns := some ⟨42⟩
    dev := some ⟨"eth0".data, 3, none⟩
    ip := some
      { saddr := "1.1.1.1".data
        daddr := "2.2.2.2".data
        version := .V4 ⟨0, 1, 0, 0⟩
        protocol := 6
        len := 40
        ttl := 64
        ecn := 0 }
    meta := some
      { len := 54
        data_len := 0
        hash := 0
        ip_summed := 2
        csum := 4660
        csum_level := 0
        priority := 0 } }

/-- The C6 display format: single line, print_ll disabled. -/
def c6Format : DisplayFormat :=
  { flavor := .SingleLine
    time_format := .MonotonicTimestamp
    show_metadata := false
    monotonic_offset := none
    print_ll := false }

set_option maxRecDepth 8000 in
/-- C6: rendering the C6 event as single-line text with `print_ll = false`
produces exactly (hence starts with) `"ns 42 if 3 (eth0) skb [csum
complete (0x1234) len 54 priority 0] unknown packet"`: hash and data_len
are elided because they are zero, `ip_summed = 2` decodes as complete with
the hex csum, and the absent packet renders as the literal token. -/
theorem skb_render_c6 :
    SkbEvent.render c6Event c6Format true (Except.ok ()) [] 0
      = .done ("ns 42 if 3 (eth0) skb [csum complete (0x1234) len 54 priority 0] unknown packet".data) := by
  decide

/-! ## BTF symbol inspection (src/retis/src/core/probe/kernel/inspect.rs) -/

/-- Rust `offset as i8` on an unsigned offset: keep the low byte,
two's-complement signed. -/
def toI8 (n : Nat) : Int :=
  if n % 256 < 128 then (n % 256 : Int) else (n % 256 : Int) - 256

/-- The `offsets` record of `retis_probe_config` (bindgen struct from the
`bindings::common_uapi` module): six signed-byte parameter offsets. -/
structure probe_offsets where
  sk_buff : Int
  skb_drop_reason : Int
  net_device : Int
  net : Int
  nft_pktinfo : Int
  nft_traceinfo : Int
deriving DecidableEq

/-- `retis_probe_config` (bindgen struct from `bindings::common_uapi`). -/
structure retis_probe_config where
  offsets : probe_offsets
deriving DecidableEq

/-- Modelled from the spec: `retis_probe_config::default()` comes from the
`bindings::common_uapi` module, which is not under `src/`; per the spec,
`-1` encodes an absent parameter offset, so the default record holds `-1`
in every offset field. -/
def retis_probe_config.default : retis_probe_config :=
  ⟨⟨-1, -1, -1, -1, -1, -1⟩⟩

/-- A `Symbol` as `inspect_symbol` consumes it: its
`parameter_offset(type_name)` lookup, which can fail (`Result`) or find no
parameter of that type (`Option`). -/
def SymbolLookup := String → Except Unit (Option Nat)

/-- `drop_reason_offset` from `inspect.rs`: the first hit among the three
drop-reason enums, cast to `i8`. -/
def drop_reason_offset (po : SymbolLookup) : Except Unit (Option Int) := do
  match ← po "enum skb_drop_reason" with
  | some offset => return some (toI8 offset)
  | none =>
    match ← po "enum mac80211_drop_reason" with
    | some offset => return some (toI8 offset)
    | none =>
      match ← po "enum ovs_drop_reason" with
      | some offset => return some (toI8 offset)
      | none => return none

/-- `inspect_symbol` from `inspect.rs`: walk the known parameter type
names and store each found offset in the config, cast `as i8`; a missing
parameter leaves the default value in place. -/
def inspect_symbol (po : SymbolLookup) : Except Unit retis_probe_config := do
  let cfg := retis_probe_config.default
  let cfg ← do
    match ← po "struct sk_buff *" with
    | some offset => pure { cfg with offsets.sk_buff := toI8 offset }
    | none => pure cfg
  let cfg ← do
    match ← drop_reason_offset po with
    | some offset => pure { cfg with offsets.skb_drop_reason := offset }
    | none => pure cfg
  let cfg ← do
    match ← po "struct net_device *" with
    | some offset => pure { cfg with offsets.net_device := toI8 offset }
    | none => pure cfg
  let cfg ← do
    match ← po "struct net *" with
    | some offset => pure { cfg with offsets.net := toI8 offset }
    | none => pure cfg
  let cfg ← do
    match ← po "struct nft_pktinfo *" with
    | some offset => pure { cfg with offsets.nft_pktinfo := toI8 offset }
    | none => pure cfg
  let cfg ← do
    match ← po "struct nft_traceinfo *" with
    | some offset => pure { cfg with offsets.nft_traceinfo := toI8 offset }
    | none => pure cfg
  return cfg

/-- A symbol whose only known parameter is an `sk_buff` at offset `n`. -/
def skbOnlyLookup (n : Nat) : SymbolLookup := fun t =>
  if t = "struct sk_buff *" then .ok (some n) else .ok none

/-- C5 counterexample: a BTF-discovered `sk_buff` offset of 255 is not
rejected — `inspect_symbol` succeeds and `255 as i8` wraps to `-1`, the
very value that is supposed to unambiguously encode an absent parameter. -/
theorem inspect_symbol_no_reject :
    inspect_symbol (skbOnlyLookup 255)
      = .ok ⟨⟨-1, -1, -1, -1, -1, -1⟩⟩ := by
  decide

/-- C5 (amended): `inspect_symbol` performs no range check: for every
symbol whose `sk_buff` parameter offset is `n` (and that has none of the
other known parameter types), inspection succeeds and stores `n` cast
`as i8` (the low byte, two's-complement); an offset in `[0, 127]` is
therefore stored verbatim, while an offset whose low byte is 128 or more
is stored as a negative value — 255 collides with the `-1` absent
marker — rather than being rejected. -/
theorem inspect_symbol_as_i8 (n : Nat) :
    inspect_symbol (skbOnlyLookup n)
      = .ok ⟨⟨toI8 n, -1, -1, -1, -1, -1⟩⟩ ∧
    (n ≤ 127 → toI8 n = n) ∧
    (128 ≤ n % 256 → toI8 n < 0) := by
  refine ⟨rfl, fun h => ?_, fun h => ?_⟩
  · unfold toI8
    omega
  · unfold toI8
    omega

/-- Witness for C5 at the concrete offset 200. -/
theorem inspect_symbol_as_i8_witness :
    inspect_symbol (skbOnlyLookup 200)
      = .ok ⟨⟨toI8 200, -1, -1, -1, -1, -1⟩⟩ ∧ toI8 200 < 0 :=
  ⟨(inspect_symbol_as_i8 200).1, (inspect_symbol_as_i8 200).2.2 (by decide)⟩
